import Mathlib

/-!
Formal model of the pyiskra register-decoding and device-update core.

Shallow embedding of `src/pyiskra/adapters/Modbus.py`,
`src/pyiskra/devices/IMPACT.py` and `src/pyiskra/exceptions.py`.
Python strings are rendered as lists of character codes (`List Nat`),
Python numbers as `Nat`/`Int`/`ℚ`, raised exceptions as `Except` errors.
Helpers that live in modules absent from the sources (`helper.py`:
`ModbusMapper`, the counter helpers) are modelled from the specification
and are marked as such in their doc comments.
-/

/-- The exception taxonomy of `pyiskra/exceptions.py`, as raised by the
Modbus adapter and the device update path. Each carries its message. -/
inductive PyErr
  | deviceConnectionError (msg : String)
  | invalidResponseCode (msg : String)
  | deviceTimeoutError (msg : String)
deriving DecidableEq

/-- The names of the exception classes actually defined in
`src/pyiskra/exceptions.py` (lines 4-21). -/
def exceptions_defined : List String :=
  ["NotAuthorised", "DeviceNotSupported", "DeviceConnectionError",
   "DeviceTimeoutError", "InvalidResponseCode"]

/-- The names imported from `pyiskra.exceptions` by
`src/pyiskra/devices/IMPACT.py` line 29. -/
def impact_exception_imports : List String := ["MeasurementTypeNotSupported"]

/-- CPython's whitespace predicate on the Latin-1 range, as used by
`str.strip()` with no arguments: tab through carriage return, the
information separators 0x1C-0x1F, space, NEL 0x85 and NBSP 0xA0. -/
def pyIsSpace (c : Nat) : Bool :=
  (9 ≤ c && c ≤ 13) || (28 ≤ c && c ≤ 31) || c = 32 || c = 133 || c = 160

/-- Python `s.strip()` on a string rendered as a list of character codes:
drop whitespace from both ends. -/
def pyStrip (s : List Nat) : List Nat :=
  ((s.dropWhile pyIsSpace).reverse.dropWhile pyIsSpace).reverse

/-- Python `s.split("\0")[0]`: the part of the string before the first
null character. -/
def pySplitNullHead (s : List Nat) : List Nat :=
  s.takeWhile (fun c => c ≠ 0)

/-- `Modbus.convert_registers_to_string` (`Modbus.py` lines 53-61):
for each register append `chr(register >> 8)` and `chr(register & 0xFF)`,
then `split("\0")[0].strip()`. -/
def convert_registers_to_string (registers : List Nat) : List Nat :=
  let s := registers.foldl (fun acc register =>
    acc ++ [register >>> 8, register &&& 0xFF]) []
  pyStrip (pySplitNullHead s)

/-- The spec's description of the string decode: each register split into
its high byte and low byte, in that order. Written from the spec's words
for comparison with `convert_registers_to_string`. -/
def spec_register_chars (r : Nat) : List Nat :=
  [(r / 256) % 256, r % 256]

/-- The spec's string decode: concatenate the per-register byte pairs,
truncate at the first null byte, strip surrounding whitespace. Written
from the spec's words for comparison with `convert_registers_to_string`. -/
def spec_convert_registers_to_string (registers : List Nat) : List Nat :=
  pyStrip (pySplitNullHead
    (registers.foldr (fun r acc => spec_register_chars r ++ acc) []))

/-- First definition of `Impact.check_time_blocks_support`
(`IMPACT.py` lines 372-383): read input register 13, divide by 100,
return `True` exactly when the quotient is below 1 or above 1.5. -/
def check_time_blocks_support_first (reg13 : Nat) : Bool :=
  let sw_version : ℚ := (reg13 : ℚ) / 100
  if sw_version < 1 ∨ sw_version > 3/2 then true else false

/-- Second definition of `Impact.check_time_blocks_support`
(`IMPACT.py` lines 385-397), the one Python keeps since it overrides the
first: read input register 13, divide by 100, return `True` exactly when
the quotient is below 1 or above 1.5. -/
def check_time_blocks_support_second (reg13 : Nat) : Bool :=
  let sw_version : ℚ := (reg13 : ℚ) / 100
  if sw_version < 1 ∨ sw_version > 3/2 then true else false

/-- The measurement-type enumeration consumed by `Impact.get_measurements`.
Modelled from the spec: `MeasurementType` lives in the absent `helper.py`;
the spec names the four variants actual / average / min / max. -/
inductive MeasurementType
  | actual
  | average
  | max
  | min
deriving DecidableEq

/-- The guard at the head of `Impact.get_measurements` (`IMPACT.py` lines
83-89): when the requested type is not `ACTUAL_MEASUREMENTS` and
`supports_interval_measurements` is `False`, the call raises
`MeasurementTypeNotSupported` before any adapter read is issued.
`some` means the guard raises; `none` means execution reaches the reads. -/
def get_measurements_guard (measurement_type : MeasurementType)
    (supports_interval_measurements : Bool) : Option String :=
  if measurement_type ≠ MeasurementType.actual
      ∧ supports_interval_measurements = false then
    some "MeasurementTypeNotSupported"
  else
    none

/-- A raw pymodbus register-read response as observed by the adapter:
the error flag reported by `isError()`, the `function_code`, and the
register payload. -/
structure ModbusResponse where
  isError : Bool
  function_code : Nat
  registers : List Nat
deriving DecidableEq

/-- The behaviour of the underlying pymodbus client for one adapter call
sequence: whether `client.connect()` establishes the connection, and what
one register read does (`Except.error` models the read raising, carrying
the exception text; `Except.ok` models it returning a response). -/
structure MClient where
  connectOk : Bool
  readOutcome : Except String ModbusResponse

/-- `true` exactly when the client's register read raises. -/
def read_raises (c : MClient) : Bool :=
  match c.readOutcome with
  | Except.error _ => true
  | Except.ok _ => false

/-- `Modbus.open_connection` (`Modbus.py` lines 63-70): `client.connect()`
leaves the connection flag equal to `connectOk`; if the adapter is then
not connected, `DeviceConnectionError` is raised. Returns the call's
outcome together with the adapter's connection flag afterwards. -/
def open_connection (c : MClient) : Except PyErr Unit × Bool :=
  (if c.connectOk then Except.ok ()
   else Except.error (PyErr.deviceConnectionError "Failed to connect to the device"),
   c.connectOk)

/-- `Modbus.close_connection` (`Modbus.py` lines 72-75): the connection
flag is cleared. -/
def close_connection (_connected : Bool) : Bool := false

/-- A connection-management action taken by one adapter read call:
a call to `open_connection` or a call to `close_connection`. -/
inductive ConnEvent
  | openEvt
  | closeEvt
deriving DecidableEq

/-- `Modbus.read_holding_registers` (`Modbus.py` lines 120-144):
`handle_connection = not self.connected`; auto-open when not connected;
the raw read, whose exception is wrapped into `DeviceConnectionError`
and re-raised (note: no close on this path); auto-close only on the
success path when this call opened the connection. Returns the outcome,
the adapter's connection flag afterwards, and the open/close actions the
call performed. -/
def read_holding_registers (c : MClient) (connected : Bool) :
    Except PyErr ModbusResponse × Bool × List ConnEvent :=
  let handle_connection := ! connected
  let step1 := if handle_connection then open_connection c
               else (Except.ok (), connected)
  let evts1 : List ConnEvent :=
    if handle_connection then [ConnEvent.openEvt] else []
  match step1 with
  | (Except.error e, st1) => (Except.error e, st1, evts1)
  | (Except.ok _, st1) =>
    match c.readOutcome with
    | Except.error e =>
        (Except.error (PyErr.deviceConnectionError
          ("Failed to read holding registers: " ++ e)), st1, evts1)
    | Except.ok response =>
        if handle_connection then
          (Except.ok response, close_connection st1,
           evts1 ++ [ConnEvent.closeEvt])
        else
          (Except.ok response, st1, evts1)

/-- `Modbus.read_input_registers` (`Modbus.py` lines 146-170): identical
connection handling to `read_holding_registers`; the wrapped error text
also says "holding" (copy-paste in the source, kept faithfully). -/
def read_input_registers (c : MClient) (connected : Bool) :
    Except PyErr ModbusResponse × Bool × List ConnEvent :=
  let handle_connection := ! connected
  let step1 := if handle_connection then open_connection c
               else (Except.ok (), connected)
  let evts1 : List ConnEvent :=
    if handle_connection then [ConnEvent.openEvt] else []
  match step1 with
  | (Except.error e, st1) => (Except.error e, st1, evts1)
  | (Except.ok _, st1) =>
    match c.readOutcome with
    | Except.error e =>
        (Except.error (PyErr.deviceConnectionError
          ("Failed to read holding registers: " ++ e)), st1, evts1)
    | Except.ok response =>
        if handle_connection then
          (Except.ok response, close_connection st1,
           evts1 ++ [ConnEvent.closeEvt])
        else
          (Except.ok response, st1, evts1)

/-- The identity record returned by `Modbus.get_basic_info`. -/
structure BasicInfo where
  model : List Nat
  serial : List Nat
  sw_ver : ℚ
  description : List Nat
  location : List Nat
deriving DecidableEq

/-- `Modbus.get_basic_info` (`Modbus.py` lines 82-118): open the
connection, read input registers 1..14, raise `InvalidResponseCode` on an
error response, decode model / serial / software version, read holding
registers 101..143, raise `InvalidResponseCode` on an error response,
close the connection, decode description / location. The two reads'
client behaviour is given by `r1` and `r2`; `connectOk` is the client's
connect behaviour. Returns the outcome and the connection flag after. -/
def get_basic_info (connectOk : Bool)
    (r1 r2 : Except String ModbusResponse) :
    Except PyErr BasicInfo × Bool :=
  match open_connection (MClient.mk connectOk r1) with
  | (Except.error e, st) => (Except.error e, st)
  | (Except.ok _, st1) =>
    match read_input_registers (MClient.mk connectOk r1) st1 with
    | (Except.error e, st2, _) => (Except.error e, st2)
    | (Except.ok response, st2, _) =>
      if response.isError then
        (Except.error (PyErr.invalidResponseCode
          ("Invalid response code: " ++ toString response.function_code)), st2)
      else
        let model := convert_registers_to_string (response.registers.take 8)
        let serial := convert_registers_to_string
          ((response.registers.drop 8).take 4)
        let sw_ver : ℚ := (response.registers.getD 13 0 : ℚ) / 100
        match read_holding_registers (MClient.mk connectOk r2) st2 with
        | (Except.error e, st3, _) => (Except.error e, st3)
        | (Except.ok response2, st3, _) =>
          if response2.isError then
            (Except.error (PyErr.invalidResponseCode
              ("Invalid response code: " ++ toString response2.function_code)),
             st3)
          else
            let st4 := close_connection st3
            let description := convert_registers_to_string
              (response2.registers.take 20)
            let location := convert_registers_to_string
              ((response2.registers.drop 20).take 20)
            (Except.ok (BasicInfo.mk model serial sw_ver description location),
             st4)

/-- The mutable per-device snapshot state touched by
`Impact.update_status`: the three category snapshots, the update
timestamp (`none` before the first successful write), and the update
lock's flag. The snapshot element types are parameters: `update_status`
stores whatever the category fetchers return, wholesale. -/
structure DevState (M C T : Type) where
  measurements : Option M
  counters : Option C
  time_blocks_measurements : Option T
  update_timestamp : Option ℚ
  lock : Bool

/-- One transport-touching step performed inside `Impact.update_status`,
recording whether the device's update lock was held when it ran. -/
inductive UEvent
  | openConn (lockHeld : Bool)
  | fetchMeasurements (lockHeld : Bool)
  | fetchCounters (lockHeld : Bool)
  | fetchTimeBlocks (lockHeld : Bool)
  | closeConn (lockHeld : Bool)
deriving DecidableEq

/-- The lock flag recorded in an update event. -/
def UEvent.lockHeld : UEvent → Bool
  | UEvent.openConn b => b
  | UEvent.fetchMeasurements b => b
  | UEvent.fetchCounters b => b
  | UEvent.fetchTimeBlocks b => b
  | UEvent.closeConn b => b

/-- `true` exactly on measurement-fetch events. -/
def UEvent.isFetchMeasurements : UEvent → Bool
  | UEvent.fetchMeasurements _ => true
  | _ => false

/-- `true` exactly on counter-fetch events. -/
def UEvent.isFetchCounters : UEvent → Bool
  | UEvent.fetchCounters _ => true
  | _ => false

/-- `true` exactly on time-block-fetch events. -/
def UEvent.isFetchTimeBlocks : UEvent → Bool
  | UEvent.fetchTimeBlocks _ => true
  | _ => false

/-- `Impact.update_status` (`IMPACT.py` lines 301-333), for a
Modbus-backed device. If the lock is already held the call waits and
returns without doing anything (the sequential rendering of the
poll-and-return path). Otherwise it runs under `async with
self.update_lock`: open the connection, fetch and assign measurements,
then counters, then time-block measurements, close the connection, stamp
`update_timestamp`; the context manager releases the lock on every exit,
and a raised exception propagates unchanged. The outcomes of the
connection open and of the three category fetches are the parameters
`openR`, `mR`, `cR`, `tR` (each category fetcher returns its complete
structure or raises); `now` is `time.time()` at completion. Returns the
call's outcome, the final device state, and the trace of
transport-touching steps with the lock flag observed at each. -/
def update_status {M C T : Type} (st : DevState M C T)
    (openR : Except PyErr Unit) (mR : Except PyErr M) (cR : Except PyErr C)
    (tR : Except PyErr T) (now : ℚ) :
    Except PyErr Unit × DevState M C T × List UEvent :=
  if st.lock then
    (Except.ok (), st, [])
  else
    let st1 := { st with lock := true }
    match openR with
    | Except.error e =>
        (Except.error e, { st1 with lock := false },
         [UEvent.openConn st1.lock])
    | Except.ok _ =>
      match mR with
      | Except.error e =>
          (Except.error e, { st1 with lock := false },
           [UEvent.openConn st1.lock, UEvent.fetchMeasurements st1.lock])
      | Except.ok m =>
        let st2 := { st1 with measurements := some m }
        match cR with
        | Except.error e =>
            (Except.error e, { st2 with lock := false },
             [UEvent.openConn st1.lock, UEvent.fetchMeasurements st1.lock,
              UEvent.fetchCounters st2.lock])
        | Except.ok cv =>
          let st3 := { st2 with counters := some cv }
          match tR with
          | Except.error e =>
              (Except.error e, { st3 with lock := false },
               [UEvent.openConn st1.lock, UEvent.fetchMeasurements st1.lock,
                UEvent.fetchCounters st2.lock,
                UEvent.fetchTimeBlocks st3.lock])
          | Except.ok tv =>
            let st4 := { st3 with time_blocks_measurements := some tv }
            (Except.ok (),
             { st4 with update_timestamp := some now, lock := false },
             [UEvent.openConn st1.lock, UEvent.fetchMeasurements st1.lock,
              UEvent.fetchCounters st2.lock, UEvent.fetchTimeBlocks st3.lock,
              UEvent.closeConn st4.lock])

/-- Modelled from the spec: `ModbusMapper` lives in the absent
`helper.py`. Per spec §4.1 it is constructed from a register window and
its starting address, and accessors compute the local offset as
`address - start_address`. The claims below only exercise in-range
accesses, so accessors are total here and return 0 out of range (the
spec's fail-fast out-of-range behaviour is not needed by them). -/
structure ModbusMapper where
  registers : List Nat
  base : Nat

/-- Modelled from the spec: single register, unsigned. -/
def ModbusMapper.get_uint16 (m : ModbusMapper) (addr : Nat) : Nat :=
  m.registers.getD (addr - m.base) 0

/-- Modelled from the spec: single register, two's-complement signed. -/
def ModbusMapper.get_int16 (m : ModbusMapper) (addr : Nat) : Int :=
  let v := m.get_uint16 addr
  if v < 32768 then (v : Int) else (v : Int) - 65536

/-- Modelled from the spec: two consecutive registers, high register
first, combined as a 32-bit unsigned integer. -/
def ModbusMapper.get_uint32 (m : ModbusMapper) (addr : Nat) : Nat :=
  m.get_uint16 addr * 65536 + m.get_uint16 (addr + 1)

/-- Modelled from the spec: the t5 float decode concatenates the two
registers into a 32-bit word (first register most significant) and
reinterprets it as IEEE-754 binary32. The reinterpretation step is kept
abstract here: the value is represented by the 32-bit word itself, which
is faithful for every claim below (none inspects float arithmetic). -/
def ModbusMapper.get_t5 (m : ModbusMapper) (addr : Nat) : ℚ :=
  (m.get_uint32 addr : ℚ)

/-- Modelled from the spec: t6 is the same bit layout and decode as t5. -/
def ModbusMapper.get_t6 (m : ModbusMapper) (addr : Nat) : ℚ :=
  m.get_t5 addr

/-- Modelled from the spec: `get_float` is the plain two-register float
decode used for counter values, same register combination as t5. -/
def ModbusMapper.get_float (m : ModbusMapper) (addr : Nat) : ℚ :=
  m.get_t5 addr

/-- Modelled from the spec: two registers interpreted as a Unix
epoch-seconds 32-bit value, same combination rule as `get_uint32`. -/
def ModbusMapper.get_timestamp (m : ModbusMapper) (addr : Nat) : ℚ :=
  (m.get_uint32 addr : ℚ)

/-- A counter's energy-flow direction. -/
inductive CounterDirection
  | importDirection
  | exportDirection
deriving DecidableEq

/-- Swap import and export. -/
def invert_direction : CounterDirection → CounterDirection
  | CounterDirection.importDirection => CounterDirection.exportDirection
  | CounterDirection.exportDirection => CounterDirection.importDirection

/-- Modelled from the spec: the decoding of a counter's configured
direction from its direction configuration register lives in the absent
`helper.py`; the spec fixes only that each counter slot's register
determines a direction. The concrete encoding is represented here by the
register value's parity; nothing proved below depends on this choice. -/
def configured_direction (v : Nat) : CounterDirection :=
  if v % 2 = 0 then CounterDirection.importDirection
  else CounterDirection.exportDirection

/-- Modelled from the spec: `get_counter_direction` (absent `helper.py`)
combines the counter's direction configuration register with the global
reversed-wiring flag — "direction is inverted if the reversed-wiring bit
is set", otherwise the configured direction is kept. -/
def get_counter_direction (v : Nat) (reverse_connection : Bool) :
    CounterDirection :=
  if reverse_connection then invert_direction (configured_direction v)
  else configured_direction v

/-- Modelled from the spec: `get_counter_units` (absent `helper.py`) maps
the units configuration register to the counter's unit; the mapping is
unspecified, so the raw configuration value stands for the unit. -/
def get_counter_units (v : Nat) : Nat := v

/-- Modelled from the spec: `get_counter_type` (absent `helper.py`)
derives the counter's semantic type from direction and unit. -/
def get_counter_type (direction : CounterDirection) (units : Nat) :
    CounterDirection × Nat :=
  (direction, units)

/-- A decoded counter: accumulated value, unit, direction, type. -/
structure Counter where
  value : ℚ
  units : Nat
  direction : CounterDirection
  counter_type : CounterDirection × Nat
deriving DecidableEq

/-- The counters snapshot: non-resettable then resettable sequences. -/
structure Counters where
  non_resettable : List Counter
  resettable : List Counter
deriving DecidableEq

/-- The decoding core of `Impact.get_counters` (`IMPACT.py` lines
229-299), Modbus branch, once the four register windows have been read:
`dataRegs` is the window of 96 input registers at 2750, `directionRegs`
the single holding register at 151, `nonResettableSettings` the 16
holding registers at 421, `resettableSettings` the 64 holding registers
at 437. `reverse_connection` is set when bit 1 of the direction register
is set (`direction_settings[0] & 2`); each counter combines its units
register, its direction register and the reverse flag, and reads its
value from the data window. -/
def Impact.get_counters (non_resettable_counters resettable_counters : Nat)
    (dataRegs directionRegs nonResettableSettings resettableSettings :
      List Nat) : Counters :=
  let data_mapper := ModbusMapper.mk dataRegs 2750
  let non_resettable_settings_mapper :=
    ModbusMapper.mk nonResettableSettings 421
  let resettable_settings_mapper := ModbusMapper.mk resettableSettings 437
  let reverse_connection : Bool := (directionRegs.getD 0 0) &&& 2 != 0
  let non_resettable := (List.range non_resettable_counters).map
    (fun counter =>
      let units := get_counter_units
        (non_resettable_settings_mapper.get_uint16 (421 + 4 * counter))
      let direction := get_counter_direction
        (non_resettable_settings_mapper.get_uint16 (422 + 4 * counter))
        reverse_connection
      let counter_type := get_counter_type direction units
      Counter.mk (data_mapper.get_float (2752 + 2 * counter)) units
        direction counter_type)
  let resettable := (List.range resettable_counters).map
    (fun counter =>
      let units := get_counter_units
        (resettable_settings_mapper.get_uint16 (437 + 4 * counter))
      let direction := get_counter_direction
        (resettable_settings_mapper.get_uint16 (438 + 4 * counter))
        reverse_connection
      let counter_type := get_counter_type direction units
      Counter.mk (data_mapper.get_float (2760 + 2 * counter)) units
        direction counter_type)
  Counters.mk non_resettable resettable

/-- A decoded measurement: numeric value and unit string. -/
structure Measurement where
  value : ℚ
  unit : String
deriving DecidableEq

/-- Python `round`: round half to even (banker's rounding). -/
def pyRound (q : ℚ) : Int :=
  let f := ⌊q⌋
  let r := q - (f : ℚ)
  if r < 1/2 then f
  else if 1/2 < r then f + 1
  else if f % 2 = 0 then f else f + 1

/-- One time block's consumed-energy records, field order as in the
`Consumed_Energy` constructor call in `IMPACT.py` lines 491-508. -/
structure Consumed_Energy where
  total : Measurement
  timestamp_total : Measurement
  last_month : Measurement
  timestamp_last_month : Measurement
  two_months_ago : Measurement
  timestamp_two_months_ago : Measurement
  last_year : Measurement
  timestamp_last_year : Measurement
  two_years_ago : Measurement
  timestamp_two_years_ago : Measurement
  this_month : Measurement
  previous_month : Measurement
  this_year : Measurement
  previous_year : Measurement
deriving DecidableEq

/-- One time block's excess-power records (`IMPACT.py` lines 518-524). -/
structure Excess_Power where
  limit : Measurement
  this_month : Measurement
  previous_month : Measurement
deriving DecidableEq

/-- One time block's peak-demand records (`IMPACT.py` lines 558-572). -/
structure Max_15min_Power where
  since_reset : Measurement
  timestamp_since_reset : Measurement
  this_month : Measurement
  timestamp_this_month : Measurement
  previous_month : Measurement
  timestamp_previous_month : Measurement
  this_year : Measurement
  timestamp_this_year : Measurement
  previous_year : Measurement
  timestamp_previous_year : Measurement
  reset_timestamp : Measurement
deriving DecidableEq

/-- A tariff time block as constructed by the source: `Time_Block` is
handed the three record lists (`IMPACT.py` lines 574-580). -/
structure Time_Block where
  consumed_energy : List Consumed_Energy
  excess_power : List Excess_Power
  max_15min_power : List Max_15min_Power
deriving DecidableEq

/-- Device-wide active-power measurements for one direction
(`IMPACT.py` lines 606-615). -/
structure Active_Power_Measurements where
  actual_value : Measurement
  thermal_function : Measurement
  predicted_15min : Measurement
  predicted_15min_active_limit : Measurement
  last_15min : Measurement
  max_15min_since_reset : Measurement
  active_energy_total : Measurement
  timestamp : Measurement
deriving DecidableEq

/-- The time-blocks snapshot (`IMPACT.py` line 659). -/
structure Time_Blocks_Measurements where
  time_blocks : List Time_Block
  active_power_import : Active_Power_Measurements
  active_power_export : Active_Power_Measurements
  active_block_index : Measurement
  time_to_end_interval : Measurement
deriving DecidableEq

/-- The decoding core of `Impact.get_time_blocks_measurements`
(`IMPACT.py` lines 414-659), Modbus branch, once the five register
windows have been read: `dataRegs` = 238 input registers at 6761,
`limitsRegs` = 5 holding registers at 990, `apmRegs` = 18 input registers
at 5244, `ctRegs` = 2 input registers at 4901, `predRegs` = 2 input
registers at 5261. In the source each loop iteration appends one record
to the accumulator lists `consumed_energy`, `excess_power`,
`max_15min_power` and then appends `Time_Block(consumed_energy,
excess_power, max_15min_power)` — the accumulator lists themselves, not
the iteration's records. Python list aliasing therefore makes every
`Time_Block` of the returned snapshot hold the same three lists, whose
content once the loop has finished is all `time_block_count` records;
that final content is what this rendering gives each block. -/
def Impact.get_time_blocks_measurements (time_block_count : Nat)
    (nominal_power : ℚ)
    (dataRegs limitsRegs apmRegs ctRegs predRegs : List Nat) :
    Time_Blocks_Measurements :=
  let mapper := ModbusMapper.mk dataRegs 6761
  let limits_mapper := ModbusMapper.mk limitsRegs 990
  let apm_mapper := ModbusMapper.mk apmRegs 5244
  let capture_timestamp_mapper := ModbusMapper.mk ctRegs 4901
  let pred_limit_mapper := ModbusMapper.mk predRegs 5261
  let exponent := mapper.get_int16 6762
  let scale : ℚ := (10 : ℚ) ^ exponent
  let consumed_energy := (List.range time_block_count).map (fun block =>
    Consumed_Energy.mk
      (Measurement.mk ((mapper.get_uint32 (6786 + 42 * block) : ℚ) * scale) "Wh")
      (Measurement.mk (capture_timestamp_mapper.get_timestamp 4901) "")
      (Measurement.mk ((mapper.get_uint32 (6788 + 42 * block) : ℚ) * scale) "Wh")
      (Measurement.mk (mapper.get_timestamp 6766) "")
      (Measurement.mk ((mapper.get_uint32 (6790 + 42 * block) : ℚ) * scale) "Wh")
      (Measurement.mk (mapper.get_timestamp 6768) "")
      (Measurement.mk ((mapper.get_uint32 (6792 + 42 * block) : ℚ) * scale) "Wh")
      (Measurement.mk (mapper.get_timestamp 6770) "")
      (Measurement.mk ((mapper.get_uint32 (6794 + 42 * block) : ℚ) * scale) "Wh")
      (Measurement.mk (mapper.get_timestamp 6772) "")
      (Measurement.mk ((mapper.get_uint32 (6796 + 42 * block) : ℚ) * scale) "Wh")
      (Measurement.mk ((mapper.get_uint32 (6798 + 42 * block) : ℚ) * scale) "Wh")
      (Measurement.mk ((mapper.get_uint32 (6800 + 42 * block) : ℚ) * scale) "Wh")
      (Measurement.mk ((mapper.get_uint32 (6802 + 42 * block) : ℚ) * scale) "Wh"))
  let excess_power := (List.range time_block_count).map (fun block =>
    Excess_Power.mk
      (Measurement.mk
        ((pyRound (((limits_mapper.get_uint16 (990 + 1 * block) : ℚ) *
          (nominal_power / 1000)) / 10) : ℚ)) "W")
      (Measurement.mk (mapper.get_t5 (6804 + 42 * block)) "W")
      (Measurement.mk (mapper.get_t5 (6806 + 42 * block)) "W"))
  let max_15min_power := (List.range time_block_count).map (fun block =>
    Max_15min_Power.mk
      (Measurement.mk (mapper.get_t5 (6808 + 42 * block)) "W")
      (Measurement.mk (mapper.get_timestamp (6810 + 42 * block)) "")
      (Measurement.mk (mapper.get_t5 (6812 + 42 * block)) "W")
      (Measurement.mk (mapper.get_timestamp (6814 + 42 * block)) "")
      (Measurement.mk (mapper.get_t5 (6816 + 42 * block)) "W")
      (Measurement.mk (mapper.get_timestamp (6818 + 42 * block)) "")
      (Measurement.mk (mapper.get_t5 (6820 + 42 * block)) "W")
      (Measurement.mk (mapper.get_timestamp (6822 + 42 * block)) "")
      (Measurement.mk (mapper.get_t5 (6824 + 42 * block)) "W")
      (Measurement.mk (mapper.get_timestamp (6826 + 42 * block)) "")
      (Measurement.mk (mapper.get_timestamp 6764) ""))
  let time_blocks := (List.range time_block_count).map (fun _ =>
    Time_Block.mk consumed_energy excess_power max_15min_power)
  let active_power_import := Active_Power_Measurements.mk
    (Measurement.mk (apm_mapper.get_t5 5245) "W")
    (Measurement.mk (apm_mapper.get_t5 5247) "W")
    (Measurement.mk (apm_mapper.get_t5 5249) "W")
    (Measurement.mk ((pred_limit_mapper.get_int16 5261 : ℚ) / 100) "%")
    (Measurement.mk (apm_mapper.get_t5 5251) "W")
    (Measurement.mk (mapper.get_t5 6778) "W")
    (Measurement.mk ((mapper.get_uint32 6774 : ℚ) * scale) "W")
    (Measurement.mk (mapper.get_timestamp 6780) "")
  let active_power_export := Active_Power_Measurements.mk
    (Measurement.mk (apm_mapper.get_t5 5253) "W")
    (Measurement.mk (apm_mapper.get_t5 5255) "W")
    (Measurement.mk (apm_mapper.get_t5 5257) "W")
    (Measurement.mk 0 "")
    (Measurement.mk (apm_mapper.get_t5 5259) "W")
    (Measurement.mk ((mapper.get_uint32 6782 : ℚ) * scale) "W")
    (Measurement.mk ((mapper.get_uint32 6776 : ℚ) * scale) "W")
    (Measurement.mk (mapper.get_timestamp 6784) "")
  Time_Blocks_Measurements.mk time_blocks active_power_import
    active_power_export
    (Measurement.mk (mapper.get_uint16 6763 : ℚ) "")
    (Measurement.mk (apm_mapper.get_uint16 5244 : ℚ) "s")

/-- Program counter of one `update_status` coroutine in the cooperative
(asyncio) model of `IMPACT.py` lines 301-333. `entry` is the
`update_lock.locked()` check at line 310 together with, when the lock is
free, the uncontended `async with self.update_lock` acquisition — in
asyncio an uncontended `Lock.acquire` hits no suspension point, so check
and acquisition form one atomic step. `wait` is the
`while locked(): await asyncio.sleep(0.1)` loop. `fetchM`, `fetchC`,
`fetchT` are the three category fetches (each spanning its own I/O
suspensions, rendered as one snapshot-writing step apiece), `stamp` is
the timestamp write plus the lock release performed when the
`async with` block exits, `done` is the coroutine's return. -/
inductive TPc
  | entry
  | wait
  | fetchM
  | fetchC
  | fetchT
  | stamp
  | done
deriving DecidableEq

/-- The values one `update_status` run would fetch and store: the three
category snapshots and the completion timestamp, abstracted to tokens. -/
structure FetchVals where
  valM : Nat
  valC : Nat
  valT : Nat
  valTs : Nat

/-- The shared per-device state seen by concurrently scheduled
`update_status` coroutines: the update lock's flag, the number of fetch
sequences started so far, the snapshot fields, the timestamp, the list of
poll-sleep durations performed (in seconds), and the two coroutines'
program counters. -/
structure Sys where
  lock : Bool
  fetchCount : Nat
  snapM : Nat
  snapC : Nat
  snapT : Nat
  ts : Nat
  sleeps : List ℚ
  a : TPc
  b : TPc

/-- One atomic step of a single `update_status` coroutine whose program
counter is `pc`, fetching `v` when it runs an update: the transition of
the shared state together with the coroutine's next program counter.
At `entry`, a held lock sends the caller into the polling loop without
starting any work; a free lock is atomically acquired and a new fetch
sequence begins. At `wait`, a held lock costs one `sleep(0.1)` poll; a
free lock lets the caller return. The fetch stages write their snapshot
fields; `stamp` writes the timestamp and releases the lock. -/
def stepTask (v : FetchVals) (s : Sys) (pc : TPc) : Sys × TPc :=
  match pc with
  | TPc.entry =>
      if s.lock then (s, TPc.wait)
      else ({ s with lock := true, fetchCount := s.fetchCount + 1 },
            TPc.fetchM)
  | TPc.wait =>
      if s.lock then ({ s with sleeps := s.sleeps ++ [1/10] }, TPc.wait)
      else (s, TPc.done)
  | TPc.fetchM => ({ s with snapM := v.valM }, TPc.fetchC)
  | TPc.fetchC => ({ s with snapC := v.valC }, TPc.fetchT)
  | TPc.fetchT => ({ s with snapT := v.valT }, TPc.stamp)
  | TPc.stamp => ({ s with ts := v.valTs, lock := false }, TPc.done)
  | TPc.done => (s, TPc.done)

/-- One scheduler step: `true` runs coroutine A (fetching `vA`), `false`
runs coroutine B (fetching `vB`). -/
def stepSys (vA vB : FetchVals) (s : Sys) (choice : Bool) : Sys :=
  if choice then
    let (s', pc') := stepTask vA s s.a
    { s' with a := pc' }
  else
    let (s', pc') := stepTask vB s s.b
    { s' with b := pc' }

/-- Run the two-coroutine system under a given schedule. -/
def runSys (vA vB : FetchVals) (s : Sys) (sched : List Bool) : Sys :=
  sched.foldl (stepSys vA vB) s

/-- The situation the claim speaks about: coroutine A's update is in
progress — A holds the lock, its fetch sequence (the only one so far) is
counted, and it is about to fetch measurements — while coroutine B has
just executed its `locked()` check, observed the lock held, and entered
the polling loop. The snapshot fields still hold their previous values. -/
def initSys (oldM oldC oldT oldTs : Nat) : Sys :=
  Sys.mk true 1 oldM oldC oldT oldTs [] TPc.fetchM TPc.wait

/-- The inductive invariant of the coalesced-update system: one fetch
sequence ever started; A walks forward through its fetch stages holding
the lock exactly until it completes, having written each snapshot field
by the end of the corresponding stage; B only polls or returns, returning
only after A is done; and every poll sleeps exactly 0.1 seconds. -/
def SysInv (vA : FetchVals) (s : Sys) : Prop :=
  s.fetchCount = 1 ∧
  (s.a = TPc.fetchM ∨ s.a = TPc.fetchC ∨ s.a = TPc.fetchT ∨
    s.a = TPc.stamp ∨ s.a = TPc.done) ∧
  (s.lock = true ↔ s.a ≠ TPc.done) ∧
  (s.b = TPc.wait ∨ s.b = TPc.done) ∧
  ((s.a = TPc.fetchC ∨ s.a = TPc.fetchT ∨ s.a = TPc.stamp ∨
    s.a = TPc.done) → s.snapM = vA.valM) ∧
  ((s.a = TPc.fetchT ∨ s.a = TPc.stamp ∨ s.a = TPc.done) →
    s.snapC = vA.valC) ∧
  ((s.a = TPc.stamp ∨ s.a = TPc.done) → s.snapT = vA.valT) ∧
  (s.a = TPc.done → s.ts = vA.valTs) ∧
  (s.b = TPc.done → s.a = TPc.done) ∧
  (∀ x ∈ s.sleeps, x = 1/10)

/-- The register-to-byte-pair fold of `convert_registers_to_string`,
rewritten as a right fold over the register list. -/
theorem foldl_append_chars (regs : List Nat) (acc : List Nat) :
    regs.foldl (fun a r => a ++ [r >>> 8, r &&& 0xFF]) acc
      = acc ++ regs.foldr (fun r a => [r >>> 8, r &&& 0xFF] ++ a) [] := by
  induction regs generalizing acc with
  | nil => simp
  | cons r rs ih =>
    simp only [List.foldl_cons, List.foldr_cons, ih, List.append_assoc,
      List.cons_append, List.nil_append]

/-- For a 16-bit register value, the source's shift-and-mask byte split
agrees with the spec's high-byte/low-byte description. -/
theorem register_chars_eq (r : Nat) (h : r < 65536) :
    [r >>> 8, r &&& 0xFF] = spec_register_chars r := by
  have h1 : r >>> 8 = r / 256 := Nat.shiftRight_eq_div_pow r 8
  have h2 : r / 256 < 256 := by omega
  have h3 : r &&& 255 = r % 256 := Nat.and_pow_two_sub_one_eq_mod r 8
  simp [spec_register_chars, h1, h3, Nat.mod_eq_of_lt h2]

/-- The byte-pair folds of the source and of the spec agree on lists of
16-bit register values. -/
theorem chars_foldr_eq (regs : List Nat) (h : ∀ r ∈ regs, r < 65536) :
    regs.foldr (fun r a => [r >>> 8, r &&& 0xFF] ++ a) []
      = regs.foldr (fun r a => spec_register_chars r ++ a) [] := by
  induction regs with
  | nil => rfl
  | cons r rs ih =>
    simp only [List.foldr_cons]
    rw [register_chars_eq r (h r (List.mem_cons_self r rs)),
      ih (fun x hx => h x (List.mem_cons_of_mem r hx))]

/-- C6: `convert_registers_to_string` splits each 16-bit register into a
high byte and a low byte, emits the two corresponding characters high
byte first, truncates the concatenation at the first null byte and
strips surrounding whitespace — it agrees with the spec-side decode
`spec_convert_registers_to_string` on every list of 16-bit register
values — and the registers encoding "IE38" followed by null padding
decode to exactly "IE38" (character codes 73, 69, 51, 56). -/
theorem C6_convert_registers_to_string :
    (∀ registers : List Nat, (∀ r ∈ registers, r < 65536) →
      convert_registers_to_string registers =
        spec_convert_registers_to_string registers) ∧
    convert_registers_to_string [0x4945, 0x3338, 0, 0] = [73, 69, 51, 56] := by
  constructor
  · intro regs h
    unfold convert_registers_to_string spec_convert_registers_to_string
    rw [foldl_append_chars, List.nil_append, chars_foldr_eq regs h]
  · decide

/-- C6 witness: the general part of the statement applied to the
concrete "IE38" register list. -/
theorem C6_convert_registers_to_string_witness :
    convert_registers_to_string [0x4945, 0x3338, 0, 0] =
      spec_convert_registers_to_string [0x4945, 0x3338, 0, 0] :=
  C6_convert_registers_to_string.1 [0x4945, 0x3338, 0, 0] (by decide)

/-- C9 counterexample: the claim asserts the second definition of
`check_time_blocks_support` returns a different result from the first for
some value of input register 13; in fact the two definitions are the
same function, so no such value exists. -/
theorem C9_counterexample :
    check_time_blocks_support_first = check_time_blocks_support_second :=
  rfl

/-- C9 (amended): the two successive definitions of
`check_time_blocks_support` in the `Impact` class are behaviorally
identical — the second, which overrides the first, returns the same
result as the first for every value of input register 13. -/
theorem C9_check_time_blocks_support_identical :
    ∀ reg13 : Nat,
      check_time_blocks_support_first reg13 =
        check_time_blocks_support_second reg13 :=
  fun _ => rfl

/-- C10: `Impact.get_measurements` is written to raise
`MeasurementTypeNotSupported` before any adapter read whenever a
non-actual measurement type is requested and
`supports_interval_measurements` is false (the guard fires exactly
there), but the `MeasurementTypeNotSupported` class that `IMPACT.py`
line 29 imports from the package's exceptions module is not among the
classes `exceptions.py` defines, so the import itself fails. -/
theorem C10_missing_exception_class :
    exceptions_defined.contains "MeasurementTypeNotSupported" = false ∧
    impact_exception_imports.all
      (fun n => exceptions_defined.contains n) = false ∧
    get_measurements_guard MeasurementType.average false =
      some "MeasurementTypeNotSupported" ∧
    get_measurements_guard MeasurementType.max false =
      some "MeasurementTypeNotSupported" ∧
    get_measurements_guard MeasurementType.min false =
      some "MeasurementTypeNotSupported" ∧
    get_measurements_guard MeasurementType.actual false = none ∧
    get_measurements_guard MeasurementType.average true = none := by
  refine ⟨by decide, by decide, by decide, by decide, by decide, by decide,
    by decide⟩

/-- C4 counterexample: the claim asserts that a read entered with the
connection closed closes it again before returning on every outcome,
including the failure path. With a client whose connect succeeds but
whose register read raises, `read_holding_registers` entered unconnected
propagates the error while leaving the connection open, and its action
trace shows the open without a matching close. -/
theorem C4_counterexample :
    (read_holding_registers (MClient.mk true (Except.error "read failed"))
        false).2.1 = true ∧
    (read_holding_registers (MClient.mk true (Except.error "read failed"))
        false).2.2 = [ConnEvent.openEvt] := by
  exact ⟨rfl, rfl⟩

/-- C4 (amended): if the adapter is already connected at entry, a call to
`read_holding_registers` or `read_input_registers` neither opens nor
closes the connection (no connection action, state preserved) on every
outcome; if it is not connected, the call opens the connection, and
closes it again before returning exactly on the success path — when the
open itself fails no connection is established, and when the underlying
register read raises after a successful auto-open the error propagates
with the connection left open (the close is skipped). -/
theorem C4_connection_state :
    ∀ (c : MClient) (connected : Bool),
      (read_holding_registers c connected).2.1
          = (connected || (c.connectOk && read_raises c)) ∧
      (read_holding_registers c connected).2.2
          = (if connected then ([] : List ConnEvent)
             else if c.connectOk && ! read_raises c then
               [ConnEvent.openEvt, ConnEvent.closeEvt]
             else [ConnEvent.openEvt]) ∧
      (read_input_registers c connected).2.1
          = (connected || (c.connectOk && read_raises c)) ∧
      (read_input_registers c connected).2.2
          = (if connected then ([] : List ConnEvent)
             else if c.connectOk && ! read_raises c then
               [ConnEvent.openEvt, ConnEvent.closeEvt]
             else [ConnEvent.openEvt]) := by
  intro c connected
  obtain ⟨co, ro⟩ := c
  cases ro <;> cases co <;> cases connected <;>
    simp [read_holding_registers, read_input_registers, read_raises,
      open_connection, close_connection]

/-- C5 counterexample: the claim asserts a response carrying an error
function code fails with `InvalidResponseCode` rather than being returned
to the caller as data; `read_holding_registers` in fact returns such a
response unchecked, as data. -/
theorem C5_counterexample :
    (read_holding_registers
        (MClient.mk true (Except.ok (ModbusResponse.mk true 131 [])))
        true).1 = Except.ok (ModbusResponse.mk true 131 []) := by
  exact rfl

/-- C5 (amended): `read_holding_registers` and `read_input_registers`
fail with `DeviceConnectionError` whenever the transport is unreachable
(the auto-open fails) or the underlying register read raises (wrapped,
message prefixed); they return a response carrying an error function
code unchecked; it is `get_basic_info` that fails with
`InvalidResponseCode` on such a response — for either of its two reads —
rather than using it as data. -/
theorem C5_error_mapping :
    ∀ (c : MClient) (connected : Bool) (e : String)
      (resp resp2 : ModbusResponse) (connectOk : Bool)
      (r2 : Except String ModbusResponse),
      (c.connectOk = false → connected = false →
        (read_holding_registers c connected).1 =
            Except.error (PyErr.deviceConnectionError
              "Failed to connect to the device") ∧
          (read_input_registers c connected).1 =
            Except.error (PyErr.deviceConnectionError
              "Failed to connect to the device")) ∧
      (c.readOutcome = Except.error e → (connected || c.connectOk) = true →
        (read_holding_registers c connected).1 =
            Except.error (PyErr.deviceConnectionError
              ("Failed to read holding registers: " ++ e)) ∧
          (read_input_registers c connected).1 =
            Except.error (PyErr.deviceConnectionError
              ("Failed to read holding registers: " ++ e))) ∧
      (connectOk = true → resp.isError = true →
        (get_basic_info connectOk (Except.ok resp) r2).1 =
          Except.error (PyErr.invalidResponseCode
            ("Invalid response code: " ++ toString resp.function_code))) ∧
      (connectOk = true → resp.isError = false → resp2.isError = true →
        (get_basic_info connectOk (Except.ok resp) (Except.ok resp2)).1 =
          Except.error (PyErr.invalidResponseCode
            ("Invalid response code: " ++ toString resp2.function_code))) := by
  intro c connected e resp resp2 connectOk r2
  obtain ⟨co, ro⟩ := c
  refine ⟨?_, ?_, ?_, ?_⟩
  · intro h1 h2
    subst h1; subst h2
    exact ⟨rfl, rfl⟩
  · intro h hreach
    simp only at h
    subst h
    cases co <;> cases connected <;>
      simp_all [read_holding_registers, read_input_registers,
        open_connection]
  · intro h1 h2
    subst h1
    simp [get_basic_info, open_connection, read_input_registers,
      read_holding_registers, h2]
  · intro h1 h2 h3
    subst h1
    simp [get_basic_info, open_connection, read_input_registers,
      read_holding_registers, h2, h3]

/-- C5 witness: the amended statement applied at a concrete unreachable
client and at a concrete error-code response inside `get_basic_info`. -/
theorem C5_error_mapping_witness :
    (read_holding_registers (MClient.mk false (Except.error "x")) false).1 =
        Except.error (PyErr.deviceConnectionError
          "Failed to connect to the device") ∧
      (get_basic_info true (Except.ok (ModbusResponse.mk true 131 []))
          (Except.error "y")).1 =
        Except.error (PyErr.invalidResponseCode
          ("Invalid response code: " ++ toString 131)) := by
  have h := C5_error_mapping (MClient.mk false (Except.error "x")) false "x"
    (ModbusResponse.mk true 131 []) (ModbusResponse.mk true 131 []) true
    (Except.error "y")
  exact ⟨(h.1 rfl rfl).1, h.2.2.1 rfl rfl⟩

/-- C2: on an invocation of `update_status` that acquires the lock, the
lock is released on every exit path; every transport-touching step runs
with the lock held; whichever fetch step raises first — the connection
open, the measurements, counters or time-block fetch — its exception is
returned unchanged (not wrapped); each fetch step runs at most once (no
retry); and a run with no failure completes normally. -/
theorem C2_lock_release_and_propagation :
    ∀ {M C T : Type} (st : DevState M C T) (openR : Except PyErr Unit)
      (mR : Except PyErr M) (cR : Except PyErr C) (tR : Except PyErr T)
      (now : ℚ),
      st.lock = false →
      (update_status st openR mR cR tR now).2.1.lock = false ∧
      (∀ ev ∈ (update_status st openR mR cR tR now).2.2,
        ev.lockHeld = true) ∧
      (∀ e, openR = Except.error e →
        (update_status st openR mR cR tR now).1 = Except.error e) ∧
      (∀ e, openR = Except.ok () → mR = Except.error e →
        (update_status st openR mR cR tR now).1 = Except.error e) ∧
      (∀ e m, openR = Except.ok () → mR = Except.ok m →
        cR = Except.error e →
        (update_status st openR mR cR tR now).1 = Except.error e) ∧
      (∀ e m cv, openR = Except.ok () → mR = Except.ok m →
        cR = Except.ok cv → tR = Except.error e →
        (update_status st openR mR cR tR now).1 = Except.error e) ∧
      (∀ m cv tv, openR = Except.ok () → mR = Except.ok m →
        cR = Except.ok cv → tR = Except.ok tv →
        (update_status st openR mR cR tR now).1 = Except.ok ()) ∧
      (update_status st openR mR cR tR now).2.2.countP
          UEvent.isFetchMeasurements ≤ 1 ∧
      (update_status st openR mR cR tR now).2.2.countP
          UEvent.isFetchCounters ≤ 1 ∧
      (update_status st openR mR cR tR now).2.2.countP
          UEvent.isFetchTimeBlocks ≤ 1 := by
  intro M C T st openR mR cR tR now h
  cases openR <;> cases mR <;> cases cR <;> cases tR <;>
    simp_all [update_status, UEvent.lockHeld, UEvent.isFetchMeasurements,
      UEvent.isFetchCounters, UEvent.isFetchTimeBlocks, List.countP_cons]

/-- C2 witness: the statement applied to an unlocked device whose
counters fetch raises, and the resulting lock state and propagated
error. -/
theorem C2_lock_release_and_propagation_witness :
    (update_status (DevState.mk (M := Nat) (C := Nat) (T := Nat)
        none none none none false) (Except.ok ()) (Except.ok 1)
        (Except.error (PyErr.deviceConnectionError "boom")) (Except.ok 3)
        0).2.1.lock = false ∧
      (update_status (DevState.mk (M := Nat) (C := Nat) (T := Nat)
        none none none none false) (Except.ok ()) (Except.ok 1)
        (Except.error (PyErr.deviceConnectionError "boom")) (Except.ok 3)
        0).1 = Except.error (PyErr.deviceConnectionError "boom") := by
  have h := C2_lock_release_and_propagation
    (DevState.mk (M := Nat) (C := Nat) (T := Nat) none none none none false)
    (Except.ok ()) (Except.ok 1)
    (Except.error (PyErr.deviceConnectionError "boom")) (Except.ok 3) 0 rfl
  exact ⟨h.1, h.2.2.2.2.1 (PyErr.deviceConnectionError "boom") 1 rfl rfl rfl⟩

/-- C3: `update_status` writes each category snapshot only as a whole
value, after that category's fetch has succeeded. If the connection open
or the measurements fetch fails, every snapshot field and the timestamp
keep their previous values; if the counters fetch fails, the new
measurements are kept while counters, time blocks and the timestamp stay
at their previous values; if the time-blocks fetch fails, measurements
and counters are new while time blocks and the timestamp stay; only a
fully successful run writes all three categories and the timestamp. -/
theorem C3_snapshot_category_writes :
    ∀ {M C T : Type} (st : DevState M C T) (openR : Except PyErr Unit)
      (mR : Except PyErr M) (cR : Except PyErr C) (tR : Except PyErr T)
      (now : ℚ),
      st.lock = false →
      (∀ e, openR = Except.error e →
        (update_status st openR mR cR tR now).2.1.measurements =
            st.measurements ∧
          (update_status st openR mR cR tR now).2.1.counters = st.counters ∧
          (update_status st openR mR cR tR now).2.1.time_blocks_measurements
            = st.time_blocks_measurements ∧
          (update_status st openR mR cR tR now).2.1.update_timestamp =
            st.update_timestamp) ∧
      (∀ e, openR = Except.ok () → mR = Except.error e →
        (update_status st openR mR cR tR now).2.1.measurements =
            st.measurements ∧
          (update_status st openR mR cR tR now).2.1.counters = st.counters ∧
          (update_status st openR mR cR tR now).2.1.time_blocks_measurements
            = st.time_blocks_measurements ∧
          (update_status st openR mR cR tR now).2.1.update_timestamp =
            st.update_timestamp) ∧
      (∀ e m, openR = Except.ok () → mR = Except.ok m →
        cR = Except.error e →
        (update_status st openR mR cR tR now).2.1.measurements = some m ∧
          (update_status st openR mR cR tR now).2.1.counters = st.counters ∧
          (update_status st openR mR cR tR now).2.1.time_blocks_measurements
            = st.time_blocks_measurements ∧
          (update_status st openR mR cR tR now).2.1.update_timestamp =
            st.update_timestamp) ∧
      (∀ e m cv, openR = Except.ok () → mR = Except.ok m →
        cR = Except.ok cv → tR = Except.error e →
        (update_status st openR mR cR tR now).2.1.measurements = some m ∧
          (update_status st openR mR cR tR now).2.1.counters = some cv ∧
          (update_status st openR mR cR tR now).2.1.time_blocks_measurements
            = st.time_blocks_measurements ∧
          (update_status st openR mR cR tR now).2.1.update_timestamp =
            st.update_timestamp) ∧
      (∀ m cv tv, openR = Except.ok () → mR = Except.ok m →
        cR = Except.ok cv → tR = Except.ok tv →
        (update_status st openR mR cR tR now).2.1.measurements = some m ∧
          (update_status st openR mR cR tR now).2.1.counters = some cv ∧
          (update_status st openR mR cR tR now).2.1.time_blocks_measurements
            = some tv ∧
          (update_status st openR mR cR tR now).2.1.update_timestamp =
            some now) := by
  intro M C T st openR mR cR tR now h
  cases openR <;> cases mR <;> cases cR <;> cases tR <;>
    simp_all [update_status]

/-- C3 witness: the statement applied to an unlocked device whose
time-block fetch raises — measurements and counters are newly written,
the time-block snapshot and timestamp keep their previous values. -/
theorem C3_snapshot_category_writes_witness :
    (update_status (DevState.mk (M := Nat) (C := Nat) (T := Nat)
        (some 7) (some 8) (some 9) (some 4) false) (Except.ok ())
        (Except.ok 1) (Except.ok 2)
        (Except.error (PyErr.deviceTimeoutError "t")) 0).2.1.measurements
      = some 1 ∧
    (update_status (DevState.mk (M := Nat) (C := Nat) (T := Nat)
        (some 7) (some 8) (some 9) (some 4) false) (Except.ok ())
        (Except.ok 1) (Except.ok 2)
        (Except.error (PyErr.deviceTimeoutError "t")) 0).2.1.counters
      = some 2 ∧
    (update_status (DevState.mk (M := Nat) (C := Nat) (T := Nat)
        (some 7) (some 8) (some 9) (some 4) false) (Except.ok ())
        (Except.ok 1) (Except.ok 2)
        (Except.error (PyErr.deviceTimeoutError "t"))
        0).2.1.time_blocks_measurements = some 9 ∧
    (update_status (DevState.mk (M := Nat) (C := Nat) (T := Nat)
        (some 7) (some 8) (some 9) (some 4) false) (Except.ok ())
        (Except.ok 1) (Except.ok 2)
        (Except.error (PyErr.deviceTimeoutError "t"))
        0).2.1.update_timestamp = some 4 := by
  have h := C3_snapshot_category_writes
    (DevState.mk (M := Nat) (C := Nat) (T := Nat)
      (some 7) (some 8) (some 9) (some 4) false) (Except.ok ())
    (Except.ok 1) (Except.ok 2) (Except.error (PyErr.deviceTimeoutError "t"))
    0 rfl
  have h4 := h.2.2.2.1 (PyErr.deviceTimeoutError "t") 1 2 rfl rfl rfl rfl
  exact ⟨h4.1, h4.2.1, h4.2.2.1, h4.2.2.2⟩

/-- The source's reversed-wiring test `direction_settings[0] & 2`
is exactly bit 1 of the direction register. -/
theorem and_two_ne_zero_eq_testBit (d : Nat) :
    ((d &&& 2 != 0) : Bool) = d.testBit 1 := by
  have h2 : d &&& 2 = (d.testBit 1).toNat * 2 := Nat.and_two_pow d 1
  cases h : d.testBit 1 <;> simp [h] at h2 <;> simp [h2]

/-- C7: in `Impact.get_counters`, the global reversed-wiring bit (bit 1
of holding register 151) inverts every counter's direction, resettable
and non-resettable alike: with the bit set each counter's direction is
the inversion of what the same configuration produces with the bit
clear, and with the bit clear each counter keeps the direction its own
configuration register configures. -/
theorem C7_counter_direction_inversion :
    ∀ (nNon nRes : Nat) (dataRegs nrs rs : List Nat) (d1 d2 : Nat),
      d1.testBit 1 = true → d2.testBit 1 = false →
      (Impact.get_counters nNon nRes dataRegs [d1] nrs rs).non_resettable.map
          Counter.direction =
        ((Impact.get_counters nNon nRes dataRegs [d2] nrs
          rs).non_resettable.map Counter.direction).map invert_direction ∧
      (Impact.get_counters nNon nRes dataRegs [d1] nrs rs).resettable.map
          Counter.direction =
        ((Impact.get_counters nNon nRes dataRegs [d2] nrs
          rs).resettable.map Counter.direction).map invert_direction ∧
      (Impact.get_counters nNon nRes dataRegs [d2] nrs
          rs).non_resettable.map Counter.direction =
        (List.range nNon).map (fun counter => configured_direction
          ((ModbusMapper.mk nrs 421).get_uint16 (422 + 4 * counter))) ∧
      (Impact.get_counters nNon nRes dataRegs [d2] nrs rs).resettable.map
          Counter.direction =
        (List.range nRes).map (fun counter => configured_direction
          ((ModbusMapper.mk rs 437).get_uint16 (438 + 4 * counter))) := by
  intro nNon nRes dataRegs nrs rs d1 d2 h1 h2
  have e1 : (d1 &&& 2 != 0) = true := by
    simpa [and_two_ne_zero_eq_testBit] using h1
  have e2 : (d2 &&& 2 != 0) = false := by
    simpa [and_two_ne_zero_eq_testBit] using h2
  have p1 : ¬ (d1 &&& 2 = 0) := by simpa using e1
  have p2 : d2 &&& 2 = 0 := by simpa using e2
  refine ⟨?_, ?_, ?_, ?_⟩ <;>
    simp [Impact.get_counters, p1, p2, get_counter_direction,
      List.map_map, Function.comp]

/-- C7 witness: the inversion applied at one resettable and one
non-resettable counter slot with concrete configuration registers,
direction register 2 (bit 1 set) against direction register 0. -/
theorem C7_counter_direction_inversion_witness :
    (Impact.get_counters 1 1 [] [2] [0, 1] [0, 2]).non_resettable.map
        Counter.direction =
      ((Impact.get_counters 1 1 [] [0] [0, 1] [0, 2]).non_resettable.map
        Counter.direction).map invert_direction ∧
    (Impact.get_counters 1 1 [] [0] [0, 1] [0, 2]).non_resettable.map
        Counter.direction =
      (List.range 1).map (fun counter => configured_direction
        ((ModbusMapper.mk [0, 1] 421).get_uint16 (422 + 4 * counter))) := by
  have h := C7_counter_direction_inversion 1 1 [] [0, 1] [0, 2] 2 0
    (by decide) (by decide)
  exact ⟨h.1, h.2.2.1⟩

/-- C8: `Impact.get_time_blocks_measurements` does return exactly
`time_block_count` time blocks, but — because the source appends the
accumulator lists themselves into every `Time_Block` — each returned
block holds all `time_block_count` consumed-energy, excess-power and
peak-demand records rather than precisely its own one of each. -/
theorem C8_time_blocks_share_all_records :
    ∀ (time_block_count : Nat) (nominal_power : ℚ)
      (dataRegs limitsRegs apmRegs ctRegs predRegs : List Nat) (i : Nat)
      (h : i < (Impact.get_time_blocks_measurements time_block_count
        nominal_power dataRegs limitsRegs apmRegs ctRegs
        predRegs).time_blocks.length),
      (Impact.get_time_blocks_measurements time_block_count nominal_power
          dataRegs limitsRegs apmRegs ctRegs predRegs).time_blocks.length
        = time_block_count ∧
      ((Impact.get_time_blocks_measurements time_block_count nominal_power
          dataRegs limitsRegs apmRegs ctRegs predRegs).time_blocks.get
          ⟨i, h⟩).consumed_energy.length = time_block_count ∧
      ((Impact.get_time_blocks_measurements time_block_count nominal_power
          dataRegs limitsRegs apmRegs ctRegs predRegs).time_blocks.get
          ⟨i, h⟩).excess_power.length = time_block_count ∧
      ((Impact.get_time_blocks_measurements time_block_count nominal_power
          dataRegs limitsRegs apmRegs ctRegs predRegs).time_blocks.get
          ⟨i, h⟩).max_15min_power.length = time_block_count := by
  intro tbc np dataRegs limitsRegs apmRegs ctRegs predRegs i h
  refine ⟨?_, ?_, ?_, ?_⟩ <;>
    simp [Impact.get_time_blocks_measurements]

/-- C8 witness: with the IE38 block count of 5, block 0 of the returned
snapshot holds 5 consumed-energy records, not 1. -/
theorem C8_time_blocks_share_all_records_witness :
    ((Impact.get_time_blocks_measurements 5 0 [] [] [] [] []).time_blocks.get
      ⟨0, by simp [Impact.get_time_blocks_measurements]⟩).consumed_energy.length
      = 5 ∧ (5 : Nat) ≠ 1 := by
  exact ⟨(C8_time_blocks_share_all_records 5 0 [] [] [] [] [] 0
    (by simp [Impact.get_time_blocks_measurements])).2.1, by decide⟩

/-- The coalesced-update invariant is preserved by every scheduler step. -/
theorem sysInv_step (vA vB : FetchVals) (s : Sys) (choice : Bool)
    (hInv : SysInv vA s) : SysInv vA (stepSys vA vB s choice) := by
  obtain ⟨h1, h2, h3, h4, h5, h6, h7, h8, h9, h10⟩ := hInv
  obtain ⟨lock, fc, sm, sc, stv, ts, sl, a, b⟩ := s
  dsimp only at h1 h2 h3 h4 h5 h6 h7 h8 h9 h10
  rcases h2 with ha | ha | ha | ha | ha <;> subst ha <;>
    rcases h4 with hb | hb <;> subst hb <;>
      cases lock <;> cases choice <;>
        simp_all [SysInv, stepSys, stepTask] <;>
          first
            | exact h10
            | (intro x hx
               rcases hx with hx | hx
               · exact h10 x hx
               · exact hx)

/-- The coalesced-update invariant holds in every reachable state. -/
theorem runSys_inv (vA vB : FetchVals) (s : Sys) (sched : List Bool)
    (hInv : SysInv vA s) : SysInv vA (runSys vA vB s sched) := by
  induction sched generalizing s with
  | nil => exact hInv
  | cons c cs ih => exact ih (stepSys vA vB s c) (sysInv_step vA vB s c hInv)

/-- The coalesced-update invariant holds initially. -/
theorem sysInv_init (vA : FetchVals) (oldM oldC oldT oldTs : Nat) :
    SysInv vA (initSys oldM oldC oldT oldTs) := by
  refine ⟨rfl, Or.inl rfl, ?_, Or.inl rfl, ?_, ?_, ?_, ?_, ?_, ?_⟩ <;>
    simp [initSys]

/-- C1: in the cooperative model of two concurrent `update_status`
coroutines, when B's call starts while A's update is in progress, B's
entry check sends it into the polling loop without starting a fetch
(second half); and in every state reachable from that situation exactly
one fetch sequence has ever started, every poll B performs sleeps
exactly 0.1 seconds, and whenever B has returned the update lock is
free and the snapshot fields and timestamp hold precisely the values A's
completed update wrote (first half). -/
theorem C1_coalesced_update :
    ∀ (vA vB : FetchVals) (oldM oldC oldT oldTs : Nat) (sched : List Bool),
      ((runSys vA vB (initSys oldM oldC oldT oldTs) sched).fetchCount = 1 ∧
        ((runSys vA vB (initSys oldM oldC oldT oldTs) sched).b = TPc.done →
          (runSys vA vB (initSys oldM oldC oldT oldTs) sched).lock = false ∧
          (runSys vA vB (initSys oldM oldC oldT oldTs) sched).snapM =
            vA.valM ∧
          (runSys vA vB (initSys oldM oldC oldT oldTs) sched).snapC =
            vA.valC ∧
          (runSys vA vB (initSys oldM oldC oldT oldTs) sched).snapT =
            vA.valT ∧
          (runSys vA vB (initSys oldM oldC oldT oldTs) sched).ts =
            vA.valTs) ∧
        (∀ x ∈ (runSys vA vB (initSys oldM oldC oldT oldTs) sched).sleeps,
          x = 1/10)) ∧
      (∀ t : Sys, t.lock = true → t.b = TPc.entry →
        (stepSys vA vB t false).b = TPc.wait ∧
        (stepSys vA vB t false).fetchCount = t.fetchCount) := by
  intro vA vB oldM oldC oldT oldTs sched
  constructor
  · have hI := runSys_inv vA vB (initSys oldM oldC oldT oldTs) sched
      (sysInv_init vA oldM oldC oldT oldTs)
    obtain ⟨h1, h2, h3, h4, h5, h6, h7, h8, h9, h10⟩ := hI
    refine ⟨h1, ?_, h10⟩
    intro hb
    have ha := h9 hb
    have hlock : (runSys vA vB (initSys oldM oldC oldT oldTs) sched).lock
        = false := by
      cases hl : (runSys vA vB (initSys oldM oldC oldT oldTs) sched).lock
      · rfl
      · exact absurd ha (h3.mp hl)
    exact ⟨hlock, h5 (Or.inr (Or.inr (Or.inr ha))),
      h6 (Or.inr (Or.inr ha)), h7 (Or.inr ha), h8 ha⟩
  · intro t ht hb
    constructor
    · simp [stepSys, stepTask, hb, ht]
    · simp [stepSys, stepTask, hb, ht]

/-- C1 witness: concrete schedule in which A finishes its in-progress
update and B then observes the free lock and returns — one fetch
sequence, A's snapshot observed — together with a concrete entry check
against a held lock. -/
theorem C1_coalesced_update_witness :
    (runSys (FetchVals.mk 1 2 3 4) (FetchVals.mk 5 6 7 8) (initSys 0 0 0 0)
        [true, true, true, true, false]).fetchCount = 1 ∧
      (runSys (FetchVals.mk 1 2 3 4) (FetchVals.mk 5 6 7 8) (initSys 0 0 0 0)
        [true, true, true, true, false]).lock = false ∧
      (runSys (FetchVals.mk 1 2 3 4) (FetchVals.mk 5 6 7 8) (initSys 0 0 0 0)
        [true, true, true, true, false]).snapM = 1 ∧
      (stepSys (FetchVals.mk 1 2 3 4) (FetchVals.mk 5 6 7 8)
        (Sys.mk true 1 0 0 0 0 [] TPc.fetchM TPc.entry) false).b
        = TPc.wait := by
  have h := C1_coalesced_update (FetchVals.mk 1 2 3 4) (FetchVals.mk 5 6 7 8)
    0 0 0 0 [true, true, true, true, false]
  have hb : (runSys (FetchVals.mk 1 2 3 4) (FetchVals.mk 5 6 7 8)
      (initSys 0 0 0 0) [true, true, true, true, false]).b = TPc.done := by
    rfl
  exact ⟨h.1.1, (h.1.2.1 hb).1, (h.1.2.1 hb).2.1,
    (h.2 (Sys.mk true 1 0 0 0 0 [] TPc.fetchM TPc.entry) rfl rfl).1⟩
